import Mathlib

/-!
A shallow embedding of the bedwarsapi repository (src/api_server.py and
src/bot.py): the licensing / device-binding authorization engine.

Modelling conventions:
* SQLite tables become association lists kept in insertion order
  (`dbLookup` scans from the front, matching `SELECT ... LIMIT` of the
  first row for a UNIQUE-keyed lookup).
* Timestamps are nonnegative seconds (`Nat`); `(a - b).days` of a Python
  `timedelta` becomes `(a - b) / 86400` under the assumption the clock
  does not run backwards.
* Nullable columns become `Option`; Python truthiness of an optional
  string (`if hwid:`) is `truthy`, which rejects both `None` and `""`.
* The activity journal of api_server.py (`log_activity`, which swallows
  every write failure) is `logApi`; the journal of bot.py (same name, but
  with no exception handler) is `logBot`, whose failure propagates as an
  `Except.error`.  A `logFails` flag stands for "the INSERT into
  activity_logs raises on this call".
* Endpoints that mutate no state (stats, file delivery, tamper-alert
  forwarding) are not modelled; every state-mutating operation of the two
  files appears in `Op`/`step`.
-/

namespace BW

/-- Row of the `scripts` table (api_server.py / bot.py `init_database`). -/
structure ScriptRec where
  name : String
  description : Option String
  scriptUrl : Option String
  version : String
deriving DecidableEq, Repr

/-- Row of the `blacklist` table. -/
structure BlEntry where
  reason : String
  blacklistedBy : String
  discordId : Option String
  blacklistedAt : Nat
deriving DecidableEq, Repr

/-- Row of the `users` table. -/
structure UserRec where
  discordId : String
  username : String
  hwid : Option String
  licenseKey : Option String
  isActive : Bool
  expiryDate : Option Nat
  createdAt : Nat
  lastReset : Option Nat
deriving DecidableEq, Repr

/-- Row of the `keys` table (keyed externally by `key_code`). -/
structure KeyRec where
  durationDays : Nat
  isRedeemed : Bool
  redeemedBy : Option String
  redeemedAt : Option Nat
  createdAt : Nat
deriving DecidableEq, Repr

/-- Row of the `activity_logs` table (bot.py writes no hwid column). -/
structure LogRec where
  discordId : Option String
  hwid : Option String
  action : String
  details : String
deriving DecidableEq, Repr

/-- The whole persistent store (tables of both source files, which share
one sqlite database). `hwidRegistry` is keyed by (discord_id, hwid) and
stores last_seen; `hwidResets` stores (discord_id, old_hwid) rows. -/
structure DBState where
  scripts : List (String × ScriptRec)
  blacklist : List (String × BlEntry)
  users : List UserRec
  keys : List (String × KeyRec)
  hwidRegistry : List ((String × String) × Nat)
  hwidResets : List (String × String)
  logs : List LogRec
deriving DecidableEq, Repr

/-- First row whose UNIQUE key equals `k` (a `SELECT ... WHERE key = ?`). -/
def dbLookup {α : Type} : List (String × α) → String → Option α
  | [], _ => none
  | e :: rest, k => if e.1 = k then some e.2 else dbLookup rest k

/-- `SELECT * FROM users WHERE discord_id = ?` (discord_id is UNIQUE). -/
def findUser : List UserRec → String → Option UserRec
  | [], _ => none
  | u :: rest, i => if u.discordId = i then some u else findUser rest i

/-- Python truthiness of an optional string: `None` and `""` are falsy. -/
def truthy : Option String → Bool
  | none => false
  | some s => !(s == "")

/-- api_server.py `log_activity`: INSERT into activity_logs inside
`try/except`, so a failing write leaves the store unchanged and raises
nothing. -/
def logApi (logFails : Bool) (st : DBState) (r : LogRec) : DBState :=
  if logFails then st else { st with logs := st.logs ++ [r] }

/-- bot.py `log_activity`: the same INSERT but with no exception handler,
so a failing write propagates to the caller. -/
def logBot (logFails : Bool) (st : DBState) (r : LogRec) : Except Unit DBState :=
  if logFails then .error () else .ok { st with logs := st.logs ++ [r] }

/-- Result of POST /verify-key. -/
inductive VerifyOut
  | invalidKey
  | blacklisted (reason : String)
  | valid (name version : String)
deriving DecidableEq, Repr

/-- api_server.py `verify_key`: resolve the script key; if absent deny.
Then, only when the supplied hwid is truthy, consult the blacklist; if
present deny with the stored reason; otherwise grant. -/
def verify_key (logFails : Bool) (st : DBState) (scriptKey : String)
    (hwid : Option String) : DBState × VerifyOut :=
  match dbLookup st.scripts scriptKey with
  | none =>
      (logApi logFails st ⟨none, hwid, "INVALID_KEY", "Key: " ++ scriptKey.take 16 ++ "..."⟩,
       .invalidKey)
  | some s =>
      if truthy hwid then
        match dbLookup st.blacklist (hwid.getD "") with
        | some e =>
            (logApi logFails st ⟨none, hwid, "BLACKLIST_CHECK", "HWID is blacklisted"⟩,
             .blacklisted e.reason)
        | none =>
            (logApi logFails st ⟨none, hwid, "KEY_VERIFIED", "Script: " ++ s.name⟩,
             .valid s.name s.version)
      else
        (logApi logFails st ⟨none, hwid, "KEY_VERIFIED", "Script: " ++ s.name⟩,
         .valid s.name s.version)

/-- Result of POST /check-blacklist. -/
inductive CheckOut
  | invalidScript
  | isBlacklisted (reason : String) (blAt : Nat) (blBy : String)
  | clean
deriving DecidableEq, Repr

/-- api_server.py `check_blacklist`: optional script-key gate, then a pure
blacklist lookup (logged only when the hwid is found). -/
def check_blacklist (logFails : Bool) (st : DBState) (hwid : String)
    (scriptKey : Option String) : DBState × CheckOut :=
  if truthy scriptKey && (dbLookup st.scripts (scriptKey.getD "")).isNone then
    (st, .invalidScript)
  else
    match dbLookup st.blacklist hwid with
    | some e =>
        (logApi logFails st ⟨none, some hwid, "BLACKLIST_ATTEMPT", "Blocked"⟩,
         .isBlacklisted e.reason e.blacklistedAt e.blacklistedBy)
    | none => (st, .clean)

/-- `INSERT ... ON CONFLICT(discord_id, hwid) DO UPDATE SET last_seen`. -/
def upsertRegistry (l : List ((String × String) × Nat)) (d h : String)
    (now : Nat) : List ((String × String) × Nat) :=
  if l.any (fun e => decide (e.1 = (d, h))) then
    l.map (fun e => if e.1 = (d, h) then (e.1, now) else e)
  else
    l ++ [((d, h), now)]

/-- Result of POST /register-hwid. -/
inductive RegOut
  | invalidScript
  | blockedBlacklisted (reason : String)
  | ok
deriving DecidableEq, Repr

/-- api_server.py `register_hwid`: optional script-key gate; blacklist
check (always, even for an empty hwid); then, when a truthy discord_id is
supplied, upsert the hwid registry and unconditionally overwrite
`users.hwid` for that discord_id, logging HWID_REGISTERED; otherwise log
the hwid anonymously. -/
def register_hwid (logFails : Bool) (now : Nat) (st : DBState) (hwid : String)
    (discordId scriptKey : Option String) : DBState × RegOut :=
  if truthy scriptKey && (dbLookup st.scripts (scriptKey.getD "")).isNone then
    (st, .invalidScript)
  else
    match dbLookup st.blacklist hwid with
    | some e =>
        (logApi logFails st ⟨discordId, some hwid, "BLACKLIST_REGISTER_ATTEMPT", "Blocked"⟩,
         .blockedBlacklisted e.reason)
    | none =>
        if truthy discordId then
          let did := discordId.getD ""
          let st1 := { st with
            hwidRegistry := upsertRegistry st.hwidRegistry did hwid now,
            users := st.users.map (fun u =>
              if u.discordId = did then { u with hwid := some hwid } else u) }
          (logApi logFails st1 ⟨discordId, some hwid, "HWID_REGISTERED", "Success"⟩, .ok)
        else
          (logApi logFails st ⟨none, some hwid, "ANONYMOUS_HWID", "No Discord ID"⟩, .ok)

/-- api_server.py `admin_register_hwid`: same registry upsert and
unconditional `users.hwid` overwrite, but with no blacklist check. -/
def admin_register_hwid (logFails : Bool) (now : Nat) (st : DBState)
    (discordId hwid : String) : DBState :=
  let st1 := { st with
    hwidRegistry := upsertRegistry st.hwidRegistry discordId hwid now,
    users := st.users.map (fun u =>
      if u.discordId = discordId then { u with hwid := some hwid } else u) }
  logApi logFails st1 ⟨some discordId, some hwid, "HWID_REGISTERED", "Via admin"⟩

/-- Result of an INSERT guarded by a UNIQUE constraint. -/
inductive InsOut
  | ok
  | conflict
deriving DecidableEq, Repr

/-- api_server.py `admin_add_key`: INSERT into keys; a duplicate key_code
raises IntegrityError, answered with 409 and no state change. -/
def admin_add_key (logFails : Bool) (now : Nat) (st : DBState) (code : String)
    (d : Nat) : DBState × InsOut :=
  match dbLookup st.keys code with
  | some _ => (st, .conflict)
  | none =>
      (logApi logFails
        { st with keys := st.keys ++ [(code, ⟨d, false, none, none, now⟩)] }
        ⟨none, none, "KEY_ADDED", code ++ " - " ++ toString d ++ "d"⟩,
       .ok)

/-- api_server.py `admin_delete_key`: DELETE FROM keys WHERE key_code = ?
(succeeds whether or not the key exists, redeemed or not). -/
def admin_delete_key (logFails : Bool) (st : DBState) (code : String) : DBState :=
  logApi logFails
    { st with keys := st.keys.filter (fun e => decide (e.1 ≠ code)) }
    ⟨none, none, "KEY_DELETED", code⟩

/-- api_server.py `admin_add_script`: INSERT into scripts with default
description "ESP Script" and default version. -/
def admin_add_script (logFails : Bool) (st : DBState) (name key desc : String) :
    DBState × InsOut :=
  match dbLookup st.scripts key with
  | some _ => (st, .conflict)
  | none =>
      (logApi logFails
        { st with scripts := st.scripts ++ [(key, ⟨name, some desc, none, "1.0.0"⟩)] }
        ⟨none, none, "SCRIPT_ADDED", name ++ " - " ++ key⟩,
       .ok)

/-- api_server.py `admin_blacklist`: INSERT into blacklist (IntegrityError
on a duplicate hwid rolls everything back and answers 409); on success
also `UPDATE users SET is_active = 0 WHERE hwid = ?`, then log. -/
def admin_blacklist (logFails : Bool) (now : Nat) (st : DBState)
    (hwid reason blBy : String) (discordId : Option String) : DBState × InsOut :=
  match dbLookup st.blacklist hwid with
  | some _ => (st, .conflict)
  | none =>
      let st1 := { st with
        blacklist := st.blacklist ++ [(hwid, ⟨reason, blBy, discordId, now⟩)],
        users := st.users.map (fun u =>
          if u.hwid = some hwid then { u with isActive := false } else u) }
      (logApi logFails st1 ⟨discordId, some hwid, "BLACKLISTED", reason⟩, .ok)

/-- Python `str.upper` (ASCII range, as produced by `generate_key`). -/
def pyUpperChar (c : Char) : Char :=
  if 97 ≤ c.toNat ∧ c.toNat ≤ 122 then Char.ofNat (c.toNat - 32) else c

/-- `input.upper()` of bot.py, over the string's character list. -/
def pyUpper (s : String) : String := ⟨s.data.map pyUpperChar⟩

/-- `input.strip()` of bot.py: whitespace dropped from both ends. -/
def pyStrip (s : String) : String :=
  ⟨((s.data.dropWhile Char.isWhitespace).reverse.dropWhile Char.isWhitespace).reverse⟩

/-- `self.key_input.value.upper().strip()` of `RedeemKeyModal.on_submit`. -/
def pyUpperStrip (s : String) : String := pyStrip (pyUpper s)

/-- Result of submitting the bot's redeem-key modal. -/
inductive RedeemOut
  | invalidOrRedeemed
  | success (durationDays expiry : Nat)
deriving DecidableEq, Repr

/-- The UNIQUE constraint on `users.license_key` (bot.py schema): the
UPDATE/INSERT that stores `keyCode` as the redeemer's license key raises
`sqlite3.IntegrityError` exactly when some OTHER row already holds that
string as its license key (updating one's own row to the same value does
not conflict; NULLs never conflict). -/
def licenseKeyConflict (users : List UserRec) (userId keyCode : String) : Bool :=
  users.any (fun u =>
    decide (u.discordId ≠ userId) && decide (u.licenseKey = some keyCode))

/-- bot.py `RedeemKeyModal.on_submit`: normalize the input
(`.upper().strip()`), `SELECT duration_days FROM keys WHERE key_code = ?
AND is_redeemed = 0`; if no row, answer one combined "invalid or already
redeemed" message.  Otherwise upsert the user (license_key, expiry =
now + duration days, is_active = 1) — this UPDATE/INSERT raises an
uncaught IntegrityError when another user already holds the code as
license_key (UNIQUE constraint), in which case nothing is committed and
the exception propagates (`.error`) — then mark the key redeemed with
redeemer and timestamp, commit, and call bot.py's `log_activity` (whose
failure propagates after the commit, so the success response is never
sent). -/
def redeem_key (logFails : Bool) (now : Nat) (st : DBState)
    (userId username input : String) : DBState × Except Unit RedeemOut :=
  let keyCode := pyUpperStrip input
  match dbLookup st.keys keyCode with
  | none => (st, .ok .invalidOrRedeemed)
  | some k =>
      if k.isRedeemed then (st, .ok .invalidOrRedeemed)
      else if licenseKeyConflict st.users userId keyCode then (st, .error ())
      else
        let expiry := now + k.durationDays * 86400
        let users' :=
          if (findUser st.users userId).isSome then
            st.users.map (fun u =>
              if u.discordId = userId then
                { u with licenseKey := some keyCode, expiryDate := some expiry,
                         isActive := true }
              else u)
          else
            st.users ++ [⟨userId, username, none, some keyCode, true, some expiry, now, none⟩]
        let keys' := st.keys.map (fun e =>
          if e.1 = keyCode then
            (e.1, { e.2 with isRedeemed := true, redeemedBy := some userId,
                             redeemedAt := some now })
          else e)
        let st1 := { st with users := users', keys := keys' }
        match logBot logFails st1 ⟨some userId, none, "REDEEM_KEY", "Key: " ++ keyCode⟩ with
        | .error _ => (st1, .error ())
        | .ok st2 => (st2, .ok (.success k.durationDays expiry))

/-- The loop body of bot.py `genkey_command`: INSERT each generated code;
a duplicate (against existing rows or an earlier code of the same batch)
raises IntegrityError, modelled as `none` (the transaction is never
committed, so nothing persists). -/
def insertKeys (ks : List (String × KeyRec)) (codes : List String)
    (d now : Nat) : Option (List (String × KeyRec)) :=
  match codes with
  | [] => some ks
  | c :: rest =>
      match dbLookup ks c with
      | some _ => none
      | none => insertKeys (ks ++ [(c, ⟨d, false, none, none, now⟩)]) rest d now

/-- Result of /genkey. -/
inductive GenOut
  | tooMany
  | ok (codes : List String)
deriving DecidableEq, Repr

/-- bot.py `genkey_command`: refuse more than 20 keys; insert one row per
generated code (the codes, produced by the random `generate_key`, are a
parameter of the model); an IntegrityError escapes uncommitted
(`.error`), otherwise commit and log. -/
def genkey (logFails : Bool) (now : Nat) (st : DBState) (userId : String)
    (d : Nat) (codes : List String) : DBState × Except Unit GenOut :=
  if 20 < codes.length then (st, .ok .tooMany)
  else
    match insertKeys st.keys codes d now with
    | none => (st, .error ())
    | some keys' =>
        let st1 := { st with keys := keys' }
        match logBot logFails st1
            ⟨some userId, none, "GEN_KEYS",
             toString codes.length ++ "x" ++ toString d ++ "d"⟩ with
        | .error _ => (st1, .error ())
        | .ok st2 => (st2, .ok (.ok codes))

/-- bot.py `genscript_command`: INSERT into scripts (description NULL,
default version); a duplicate script key is caught and reported. -/
def genscript (logFails : Bool) (st : DBState) (userId name url scriptKey : String) :
    DBState × Except Unit InsOut :=
  match dbLookup st.scripts scriptKey with
  | some _ => (st, .ok .conflict)
  | none =>
      let st1 := { st with scripts := st.scripts ++ [(scriptKey, ⟨name, none, some url, "1.0.0"⟩)] }
      match logBot logFails st1 ⟨some userId, none, "GEN_SCRIPT", name⟩ with
      | .error _ => (st1, .error ())
      | .ok st2 => (st2, .ok .ok)

/-- Result of the bot panel's Reset HWID button. -/
inductive ResetOut
  | noDevice
  | cooldown (daysLeft : Nat)
  | ok
deriving DecidableEq, Repr

/-- The success tail of `reset_hwid_button`: record the old hwid in
hwid_resets, clear `users.hwid`, stamp `last_reset = now`, commit, then
bot.py `log_activity` (failure propagates after the commit). -/
def do_reset (logFails : Bool) (now : Nat) (st : DBState) (userId oldHwid : String) :
    DBState × Except Unit ResetOut :=
  let st1 := { st with
    hwidResets := st.hwidResets ++ [(userId, oldHwid)],
    users := st.users.map (fun u =>
      if u.discordId = userId then { u with hwid := none, lastReset := some now } else u) }
  match logBot logFails st1 ⟨some userId, none, "HWID_RESET", "via panel"⟩ with
  | .error _ => (st1, .error ())
  | .ok st2 => (st2, .ok .ok)

/-- bot.py `PanelView.reset_hwid_button`: no user row or a falsy stored
hwid answers "No HWID registered"; a last_reset within
`HWID_RESET_COOLDOWN_DAYS` answers the remaining days; otherwise the
reset proceeds. -/
def reset_hwid (logFails : Bool) (cooldownDays now : Nat) (st : DBState)
    (userId : String) : DBState × Except Unit ResetOut :=
  match findUser st.users userId with
  | none => (st, .ok .noDevice)
  | some u =>
      if truthy u.hwid then
        match u.lastReset with
        | some t =>
            if (now - t) / 86400 < cooldownDays then
              (st, .ok (.cooldown (cooldownDays - (now - t) / 86400)))
            else do_reset logFails now st userId (u.hwid.getD "")
        | none => do_reset logFails now st userId (u.hwid.getD "")
      else (st, .ok .noDevice)

/-- bot.py `whitelist_command`: its only store write is the activity-log
append (role assignment lives in Discord, outside the store). -/
def whitelist_log (logFails : Bool) (st : DBState) (adminId targetName : String) :
    DBState :=
  match logBot logFails st ⟨some adminId, none, "WHITELIST_USER", "Whitelisted: " ++ targetName⟩ with
  | .error _ => st
  | .ok st' => st'

/-- Every state-mutating operation of the two source files. -/
inductive Op
  | opVerify (scriptKey : String) (hwid : Option String)
  | opCheckBl (hwid : String) (scriptKey : Option String)
  | opRegister (hwid : String) (discordId scriptKey : Option String)
  | opAdminRegister (discordId hwid : String)
  | opAddKey (code : String) (d : Nat)
  | opDeleteKey (code : String)
  | opAddScript (name key desc : String)
  | opBan (hwid reason blBy : String) (discordId : Option String)
  | opRedeem (userId username input : String)
  | opGenkey (userId : String) (d : Nat) (codes : List String)
  | opGenscript (userId name url key : String)
  | opReset (userId : String)
  | opWhitelist (adminId targetName : String)
deriving DecidableEq, Repr

/-- The store after one operation (`cd` is the configured reset cooldown
in days, `lf` whether the activity-log write fails, `now` the wall
clock at the time of the operation). -/
def step (cd : Nat) (lf : Bool) (now : Nat) (st : DBState) : Op → DBState
  | .opVerify k h => (verify_key lf st k h).1
  | .opCheckBl h k => (check_blacklist lf st h k).1
  | .opRegister h d k => (register_hwid lf now st h d k).1
  | .opAdminRegister d h => admin_register_hwid lf now st d h
  | .opAddKey c d => (admin_add_key lf now st c d).1
  | .opDeleteKey c => admin_delete_key lf st c
  | .opAddScript n k d => (admin_add_script lf st n k d).1
  | .opBan h r b d => (admin_blacklist lf now st h r b d).1
  | .opRedeem u un i => (redeem_key lf now st u un i).1
  | .opGenkey u d cs => (genkey lf now st u d cs).1
  | .opGenscript u n url k => (genscript lf st u n url k).1
  | .opReset u => (reset_hwid lf cd now st u).1
  | .opWhitelist a t => whitelist_log lf st a t

/-- A trace of timestamped operations applied in order. -/
def runOps (cd : Nat) (lf : Bool) (ops : List (Nat × Op)) (st : DBState) : DBState :=
  ops.foldl (fun s p => step cd lf p.1 s p.2) st

/-! ### Association-list lemmas -/

theorem dbLookup_nil {α : Type} (k : String) :
    dbLookup ([] : List (String × α)) k = none := rfl

theorem dbLookup_cons {α : Type} (e : String × α) (rest : List (String × α))
    (k : String) :
    dbLookup (e :: rest) k = if e.1 = k then some e.2 else dbLookup rest k := rfl

theorem dbLookup_append_of_some {α : Type} {l l' : List (String × α)} {k : String}
    {v : α} (h : dbLookup l k = some v) : dbLookup (l ++ l') k = some v := by
  induction l with
  | nil => simp [dbLookup] at h
  | cons e rest ih =>
      rw [List.cons_append, dbLookup_cons] at *
      by_cases he : e.1 = k
      · rwa [if_pos he] at h ⊢
      · rw [if_neg he] at h ⊢; exact ih h

theorem dbLookup_append_of_none {α : Type} {l : List (String × α)} {k : String}
    (h : dbLookup l k = none) (l' : List (String × α)) :
    dbLookup (l ++ l') k = dbLookup l' k := by
  induction l with
  | nil => simp
  | cons e rest ih =>
      rw [List.cons_append, dbLookup_cons] at *
      by_cases he : e.1 = k
      · rw [if_pos he] at h; exact absurd h (by simp)
      · rw [if_neg he] at h ⊢; exact ih h

theorem dbLookup_map_update {α : Type} (l : List (String × α)) (c : String)
    (g : α → α) :
    dbLookup (l.map (fun e => if e.1 = c then (e.1, g e.2) else e)) c =
      (dbLookup l c).map g := by
  induction l with
  | nil => rfl
  | cons e rest ih =>
      rw [List.map_cons]
      by_cases hc : e.1 = c
      · rw [if_pos hc, dbLookup_cons, dbLookup_cons, if_pos hc, if_pos hc]
        rfl
      · rw [if_neg hc, dbLookup_cons, dbLookup_cons, if_neg hc, if_neg hc, ih]

theorem dbLookup_map_update_ne {α : Type} (l : List (String × α)) {c k : String}
    (hk : k ≠ c) (g : α → α) :
    dbLookup (l.map (fun e => if e.1 = c then (e.1, g e.2) else e)) k =
      dbLookup l k := by
  induction l with
  | nil => rfl
  | cons e rest ih =>
      rw [List.map_cons]
      by_cases hc : e.1 = c
      · have hek : ¬ e.1 = k := fun h => hk (h ▸ hc)
        rw [if_pos hc, dbLookup_cons, dbLookup_cons, if_neg hek, if_neg hek, ih]
      · rw [if_neg hc, dbLookup_cons, dbLookup_cons, ih]

theorem dbLookup_filter_self {α : Type} (l : List (String × α)) (c : String) :
    dbLookup (l.filter (fun e => decide (e.1 ≠ c))) c = none := by
  induction l with
  | nil => rfl
  | cons e rest ih =>
      by_cases hc : e.1 = c
      · rw [List.filter_cons_of_neg]
        · exact ih
        · simp [hc]
      · rw [List.filter_cons_of_pos]
        · rw [dbLookup_cons, if_neg hc]; exact ih
        · simp [hc]

theorem dbLookup_filter_ne {α : Type} (l : List (String × α)) {c k : String}
    (hk : k ≠ c) : dbLookup (l.filter (fun e => decide (e.1 ≠ c))) k =
      dbLookup l k := by
  induction l with
  | nil => rfl
  | cons e rest ih =>
      by_cases hc : e.1 = c
      · have hek : ¬ e.1 = k := fun h => hk (h ▸ hc)
        rw [List.filter_cons_of_neg]
        · rw [ih, dbLookup_cons, if_neg hek]
        · simp [hc]
      · rw [List.filter_cons_of_pos]
        · rw [dbLookup_cons, dbLookup_cons, ih]
        · simp [hc]

theorem findUser_nil (i : String) : findUser [] i = none := rfl

theorem findUser_cons (u : UserRec) (rest : List UserRec) (i : String) :
    findUser (u :: rest) i = if u.discordId = i then some u else findUser rest i := rfl

theorem findUser_map_update (l : List UserRec) (i : String) (g : UserRec → UserRec)
    (hg : ∀ u, (g u).discordId = u.discordId) :
    findUser (l.map (fun u => if u.discordId = i then g u else u)) i =
      (findUser l i).map g := by
  induction l with
  | nil => rfl
  | cons u rest ih =>
      rw [List.map_cons]
      by_cases hu : u.discordId = i
      · rw [if_pos hu, findUser_cons, findUser_cons, if_pos hu,
          if_pos (by rw [hg u]; exact hu)]
        rfl
      · rw [if_neg hu, findUser_cons, findUser_cons, if_neg hu, if_neg hu, ih]

theorem findUser_append_of_none {l : List UserRec} {i : String}
    (h : findUser l i = none) (l' : List UserRec) :
    findUser (l ++ l') i = findUser l' i := by
  induction l with
  | nil => simp
  | cons u rest ih =>
      rw [List.cons_append, findUser_cons] at *
      by_cases hu : u.discordId = i
      · rw [if_pos hu] at h; exact absurd h (by simp)
      · rw [if_neg hu] at h ⊢; exact ih h

/-! ### Frame lemmas: which tables each operation leaves untouched -/

theorem logBot_ok {lf : Bool} {st : DBState} {r : LogRec} {st' : DBState}
    (h : logBot lf st r = .ok st') : st' = { st with logs := st.logs ++ [r] } := by
  unfold logBot at h
  split at h
  · exact absurd h (by simp)
  · injection h with h2
    exact h2.symm

theorem verify_key_frame (lf : Bool) (st : DBState) (k : String) (h : Option String) :
    ((verify_key lf st k h).1).blacklist = st.blacklist ∧
      ((verify_key lf st k h).1).keys = st.keys := by
  unfold verify_key logApi
  repeat' split
  all_goals exact ⟨rfl, rfl⟩

theorem check_blacklist_frame (lf : Bool) (st : DBState) (h : String)
    (k : Option String) :
    ((check_blacklist lf st h k).1).blacklist = st.blacklist ∧
      ((check_blacklist lf st h k).1).keys = st.keys := by
  unfold check_blacklist logApi
  repeat' split
  all_goals exact ⟨rfl, rfl⟩

theorem register_hwid_frame (lf : Bool) (now : Nat) (st : DBState) (h : String)
    (d k : Option String) :
    ((register_hwid lf now st h d k).1).blacklist = st.blacklist ∧
      ((register_hwid lf now st h d k).1).keys = st.keys := by
  unfold register_hwid logApi
  repeat' split
  all_goals exact ⟨rfl, rfl⟩

theorem admin_register_hwid_frame (lf : Bool) (now : Nat) (st : DBState)
    (d h : String) :
    (admin_register_hwid lf now st d h).blacklist = st.blacklist ∧
      (admin_register_hwid lf now st d h).keys = st.keys := by
  unfold admin_register_hwid logApi
  repeat' split
  all_goals exact ⟨rfl, rfl⟩

theorem admin_add_script_frame (lf : Bool) (st : DBState) (n k d : String) :
    ((admin_add_script lf st n k d).1).blacklist = st.blacklist ∧
      ((admin_add_script lf st n k d).1).keys = st.keys := by
  unfold admin_add_script logApi
  repeat' split
  all_goals exact ⟨rfl, rfl⟩

theorem genscript_frame (lf : Bool) (st : DBState) (u n url k : String) :
    ((genscript lf st u n url k).1).blacklist = st.blacklist ∧
      ((genscript lf st u n url k).1).keys = st.keys := by
  unfold genscript
  repeat' (first | split | dsimp only)
  all_goals try exact ⟨rfl, rfl⟩
  all_goals rename_i st2 heq
  all_goals rw [logBot_ok heq]
  all_goals exact ⟨rfl, rfl⟩

theorem do_reset_frame (lf : Bool) (now : Nat) (st : DBState) (u oh : String) :
    ((do_reset lf now st u oh).1).blacklist = st.blacklist ∧
      ((do_reset lf now st u oh).1).keys = st.keys := by
  unfold do_reset
  repeat' (first | split | dsimp only)
  all_goals try exact ⟨rfl, rfl⟩
  all_goals rename_i st2 heq
  all_goals rw [logBot_ok heq]
  all_goals exact ⟨rfl, rfl⟩

theorem reset_hwid_frame (lf : Bool) (cd now : Nat) (st : DBState) (u : String) :
    ((reset_hwid lf cd now st u).1).blacklist = st.blacklist ∧
      ((reset_hwid lf cd now st u).1).keys = st.keys := by
  unfold reset_hwid
  repeat' split
  all_goals first
    | exact ⟨rfl, rfl⟩
    | exact do_reset_frame ..

theorem whitelist_log_frame (lf : Bool) (st : DBState) (a t : String) :
    (whitelist_log lf st a t).blacklist = st.blacklist ∧
      (whitelist_log lf st a t).keys = st.keys := by
  unfold whitelist_log
  repeat' (first | split | dsimp only)
  all_goals try exact ⟨rfl, rfl⟩
  all_goals rename_i st2 heq
  all_goals rw [logBot_ok heq]
  all_goals exact ⟨rfl, rfl⟩

theorem admin_add_key_blacklist (lf : Bool) (now : Nat) (st : DBState)
    (c : String) (d : Nat) :
    ((admin_add_key lf now st c d).1).blacklist = st.blacklist := by
  unfold admin_add_key logApi
  repeat' split
  all_goals rfl

theorem admin_delete_key_blacklist (lf : Bool) (st : DBState) (c : String) :
    (admin_delete_key lf st c).blacklist = st.blacklist := by
  unfold admin_delete_key logApi
  repeat' split
  all_goals rfl

theorem redeem_key_blacklist (lf : Bool) (now : Nat) (st : DBState)
    (u un i : String) :
    ((redeem_key lf now st u un i).1).blacklist = st.blacklist := by
  unfold redeem_key
  repeat' (first | split | dsimp only)
  all_goals rename_i st2 heq
  all_goals rw [logBot_ok heq]

theorem genkey_blacklist (lf : Bool) (now : Nat) (st : DBState) (u : String)
    (d : Nat) (cs : List String) :
    ((genkey lf now st u d cs).1).blacklist = st.blacklist := by
  unfold genkey
  repeat' (first | split | dsimp only)
  all_goals rename_i st2 heq
  all_goals rw [logBot_ok heq]

theorem admin_blacklist_keys (lf : Bool) (now : Nat) (st : DBState)
    (h r b : String) (d : Option String) :
    ((admin_blacklist lf now st h r b d).1).keys = st.keys := by
  unfold admin_blacklist logApi
  repeat' split
  all_goals rfl

theorem logApi_fields (lf : Bool) (st : DBState) (r : LogRec) :
    (logApi lf st r).blacklist = st.blacklist ∧ (logApi lf st r).keys = st.keys ∧
      (logApi lf st r).scripts = st.scripts ∧ (logApi lf st r).users = st.users := by
  unfold logApi
  split <;> exact ⟨rfl, rfl, rfl, rfl⟩

theorem insertKeys_preserves {ks : List (String × KeyRec)} {codes : List String}
    {d now : Nat} {c : String} {v : KeyRec} (hv : dbLookup ks c = some v)
    {ks' : List (String × KeyRec)} (h : insertKeys ks codes d now = some ks') :
    dbLookup ks' c = some v := by
  induction codes generalizing ks with
  | nil =>
      unfold insertKeys at h
      injection h with h
      exact h ▸ hv
  | cons a rest ih =>
      unfold insertKeys at h
      split at h
      · exact absurd h (by simp)
      · exact ih (dbLookup_append_of_some hv) h

theorem insertKeys_spec (codes : List String) (ks : List (String × KeyRec))
    (d now : Nat) (hnd : codes.Nodup)
    (hfresh : ∀ c ∈ codes, dbLookup ks c = none) :
    ∃ ks', insertKeys ks codes d now = some ks' ∧
      ∀ c ∈ codes, dbLookup ks' c = some ⟨d, false, none, none, now⟩ := by
  induction codes generalizing ks with
  | nil => exact ⟨ks, rfl, by simp⟩
  | cons a rest ih =>
      have ha : dbLookup ks a = none := hfresh a (by simp)
      have hrest : ∀ c ∈ rest, dbLookup (ks ++ [(a, ⟨d, false, none, none, now⟩)]) c = none := by
        intro c hc
        rw [dbLookup_append_of_none (hfresh c (by simp [hc])) _]
        rw [dbLookup_cons]
        rw [if_neg]
        · rfl
        · intro hac
          refine (List.nodup_cons.mp hnd).1 ?_
          rw [show a = c from hac]
          exact hc
      obtain ⟨ks', hks', hmem⟩ := ih (ks ++ [(a, ⟨d, false, none, none, now⟩)])
        (List.nodup_cons.mp hnd).2 hrest
      refine ⟨ks', ?_, ?_⟩
      · unfold insertKeys
        rw [ha]
        exact hks'
      · intro c hc
        rcases List.mem_cons.mp hc with hca | hcr
        · subst hca
          refine insertKeys_preserves ?_ hks'
          rw [dbLookup_append_of_none ha _, dbLookup_cons, if_pos rfl]
        · exact hmem c hcr

theorem step_preserves_blacklist (cd : Nat) (lf : Bool) (now : Nat)
    (st : DBState) (op : Op) {fp : String} {e : BlEntry}
    (h : dbLookup st.blacklist fp = some e) :
    dbLookup (step cd lf now st op).blacklist fp = some e := by
  cases op with
  | opVerify k hw => rw [step, (verify_key_frame lf st k hw).1]; exact h
  | opCheckBl hw k => rw [step, (check_blacklist_frame lf st hw k).1]; exact h
  | opRegister hw d k => rw [step, (register_hwid_frame lf now st hw d k).1]; exact h
  | opAdminRegister d hw => rw [step, (admin_register_hwid_frame lf now st d hw).1]; exact h
  | opAddKey c d => rw [step, admin_add_key_blacklist]; exact h
  | opDeleteKey c => rw [step, admin_delete_key_blacklist]; exact h
  | opAddScript n k d => rw [step, (admin_add_script_frame lf st n k d).1]; exact h
  | opRedeem u un i => rw [step, redeem_key_blacklist]; exact h
  | opGenkey u d cs => rw [step, genkey_blacklist]; exact h
  | opGenscript u n url k => rw [step, (genscript_frame lf st u n url k).1]; exact h
  | opReset u => rw [step, (reset_hwid_frame lf cd now st u).1]; exact h
  | opWhitelist a t => rw [step, (whitelist_log_frame lf st a t).1]; exact h
  | opBan hw r b d =>
      rw [step]
      unfold admin_blacklist
      cases hb : dbLookup st.blacklist hw with
      | some _ => exact h
      | none =>
          dsimp only
          rw [(logApi_fields lf _ _).1]
          exact dbLookup_append_of_some h

theorem runOps_preserves_blacklist (cd : Nat) (lf : Bool)
    (ops : List (Nat × Op)) (st : DBState) {fp : String} {e : BlEntry}
    (h : dbLookup st.blacklist fp = some e) :
    dbLookup (runOps cd lf ops st).blacklist fp = some e := by
  induction ops generalizing st with
  | nil => exact h
  | cons p rest ih => exact ih _ (step_preserves_blacklist cd lf p.1 st p.2 h)

theorem truthy_some {s : String} (hs : s ≠ "") : truthy (some s) = true := by
  unfold truthy
  simp [hs]

theorem verify_key_blacklisted (lf : Bool) (st : DBState) {scriptKey fp : String}
    {s : ScriptRec} {e : BlEntry} (hfp : fp ≠ "")
    (hs : dbLookup st.scripts scriptKey = some s)
    (hb : dbLookup st.blacklist fp = some e) :
    (verify_key lf st scriptKey (some fp)).2 = .blacklisted e.reason := by
  unfold verify_key
  rw [hs]
  simp only [truthy_some hfp, if_true, Option.getD_some]
  rw [hb]

theorem logBot_false_ok (st : DBState) (r : LogRec) :
    logBot false st r = .ok { st with logs := st.logs ++ [r] } := rfl

theorem do_reset_ok_shape (now : Nat) (st : DBState) (uid oh : String) :
    (do_reset false now st uid oh).2 = .ok .ok ∧
      ((do_reset false now st uid oh).1).users = st.users.map (fun u =>
        if u.discordId = uid then { u with hwid := none, lastReset := some now }
        else u) := by
  unfold do_reset
  exact ⟨rfl, rfl⟩

theorem do_reset_not_cooldown (lf : Bool) (now : Nat) (st : DBState)
    (u oh : String) (n : Nat) :
    (do_reset lf now st u oh).2 ≠ .ok (.cooldown n) := by
  unfold do_reset
  repeat' (first | split | dsimp only)
  all_goals simp

theorem reset_cooldown_inversion {cd now : Nat} {st : DBState} {uid : String}
    {u : UserRec} {t n : Nat} (hf : findUser st.users uid = some u)
    (hlr : u.lastReset = some t)
    (h : (reset_hwid false cd now st uid).2 = .ok (.cooldown n)) :
    (now - t) / 86400 < cd ∧ n = cd - (now - t) / 86400 := by
  unfold reset_hwid at h
  rw [hf] at h
  dsimp only at h
  cases htr : truthy u.hwid with
  | false =>
      rw [if_neg (by simp [htr])] at h
      simp at h
  | true =>
      rw [if_pos htr] at h
      rw [hlr] at h
      dsimp only at h
      by_cases hlt : (now - t) / 86400 < cd
      · rw [if_pos hlt] at h
        dsimp only at h
        refine ⟨hlt, ?_⟩
        injection h with h
        injection h with h
        exact h.symm
      · rw [if_neg hlt] at h
        exact absurd h (do_reset_not_cooldown _ _ _ _ _ _)

theorem redeem_key_keys_preserves (lf : Bool) (now : Nat) (st : DBState)
    (uid un i : String) {code : String} {k : KeyRec}
    (hk : dbLookup st.keys code = some k) (hr : k.isRedeemed = true) :
    dbLookup (((redeem_key lf now st uid un i).1).keys) code = some k := by
  unfold redeem_key
  dsimp only
  cases hl : dbLookup st.keys (pyUpperStrip i) with
  | none => exact hk
  | some k0 =>
      dsimp only
      by_cases hred : k0.isRedeemed = true
      · rw [if_pos hred]
        exact hk
      · rw [if_neg hred]
        have hne : ¬ pyUpperStrip i = code := by
          intro he
          rw [he, hk] at hl
          injection hl with hl
          exact hred (hl ▸ hr)
        have hmu := dbLookup_map_update_ne st.keys
          (show code ≠ pyUpperStrip i from fun h => hne h.symm)
          (fun v => { v with isRedeemed := true, redeemedBy := some uid,
                             redeemedAt := some now })
        split
        · exact hk
        · split
          · exact hmu.trans hk
          · rename_i st2 heq
            rw [logBot_ok heq]
            exact hmu.trans hk

theorem genkey_keys_preserves (lf : Bool) (now : Nat) (st : DBState)
    (uid : String) (d : Nat) (cs : List String) {code : String} {k : KeyRec}
    (hk : dbLookup st.keys code = some k) :
    dbLookup (((genkey lf now st uid d cs).1).keys) code = some k := by
  unfold genkey
  split
  · exact hk
  · cases hins : insertKeys st.keys cs d now with
    | none => exact hk
    | some ks' =>
        dsimp only
        split
        · exact insertKeys_preserves hk hins
        · rename_i st2 heq
          rw [logBot_ok heq]
          exact insertKeys_preserves hk hins

theorem genkey_ok_shape (now : Nat) (st : DBState) (adminId : String) (d : Nat)
    (codes : List String) (hlen : codes.length ≤ 20)
    {ks' : List (String × KeyRec)}
    (hins : insertKeys st.keys codes d now = some ks') :
    (genkey false now st adminId d codes).2 = .ok (.ok codes)
    ∧ ((genkey false now st adminId d codes).1).keys = ks'
    ∧ ((genkey false now st adminId d codes).1).users = st.users := by
  unfold genkey
  rw [if_neg (by omega)]
  rw [hins]
  dsimp only
  rw [logBot_false_ok]
  exact ⟨rfl, rfl, rfl⟩

theorem redeem_key_success (now : Nat) (st : DBState) (uid uname input : String)
    {k : KeyRec} (hk : dbLookup st.keys (pyUpperStrip input) = some k)
    (hr : k.isRedeemed = false)
    (hnc : licenseKeyConflict st.users uid (pyUpperStrip input) = false) :
    (redeem_key false now st uid uname input).2 =
      .ok (.success k.durationDays (now + k.durationDays * 86400))
    ∧ dbLookup (((redeem_key false now st uid uname input).1).keys)
        (pyUpperStrip input) =
        some { k with isRedeemed := true, redeemedBy := some uid,
                      redeemedAt := some now }
    ∧ ∃ u, findUser (((redeem_key false now st uid uname input).1).users) uid =
          some u
        ∧ u.expiryDate = some (now + k.durationDays * 86400)
        ∧ u.isActive = true
        ∧ u.licenseKey = some (pyUpperStrip input) := by
  unfold redeem_key
  dsimp only
  rw [hk]
  dsimp only
  rw [if_neg (by simp [hr]), if_neg (by simp [hnc])]
  rw [logBot_false_ok]
  dsimp only
  refine ⟨rfl, ?_, ?_⟩
  · have h := dbLookup_map_update st.keys (pyUpperStrip input)
      (fun v => { v with isRedeemed := true, redeemedBy := some uid,
                         redeemedAt := some now })
    rw [hk] at h
    exact h
  · cases hf : findUser st.users uid with
    | some u0 =>
        have h := findUser_map_update st.users uid
          (fun u => { u with licenseKey := some (pyUpperStrip input), expiryDate := some (now + k.durationDays * 86400), isActive := true })
          (fun u => rfl)
        rw [hf] at h
        refine ⟨{ u0 with licenseKey := some (pyUpperStrip input), expiryDate := some (now + k.durationDays * 86400), isActive := true }, ?_, rfl, rfl, rfl⟩
        rw [if_pos (show (some u0).isSome = true from rfl)]
        exact h
    | none =>
        refine ⟨⟨uid, uname, none, some (pyUpperStrip input), true, some (now + k.durationDays * 86400), now, none⟩, ?_, rfl, rfl, rfl⟩
        rw [if_neg (show ¬ (none : Option UserRec).isSome = true by simp)]
        rw [findUser_append_of_none hf _, findUser_cons,
          if_pos (show (⟨uid, uname, none, some (pyUpperStrip input), true, some (now + k.durationDays * 86400), now, none⟩ : UserRec).discordId = uid from rfl)]

/-! ### Claims -/

/-- C1 (amended): for every NONEMPTY fingerprint `fp`, once
`admin_blacklist` (Ban) has returned ok, then after any further sequence
of operations, every `verify_key` call that supplies `fp` and whose
script key resolves is denied Blacklisted, carrying the reason recorded
at ban time.  (The original claim, quantified over every fingerprint,
fails at the empty fingerprint: `verify_key` treats a supplied `""` as
absent and grants without consulting the blacklist.) -/
theorem c1_ban_then_always_blacklisted (cd : Nat) (lf lf2 lf3 : Bool) (now : Nat)
    (st : DBState) (fp reason blBy : String) (did : Option String)
    (hfp : fp ≠ "")
    (hok : (admin_blacklist lf now st fp reason blBy did).2 = .ok)
    (ops : List (Nat × Op)) (scriptKey : String) (s : ScriptRec)
    (hs : dbLookup (runOps cd lf2 ops (admin_blacklist lf now st fp reason blBy did).1).scripts
        scriptKey = some s) :
    (verify_key lf3 (runOps cd lf2 ops (admin_blacklist lf now st fp reason blBy did).1)
        scriptKey (some fp)).2 = .blacklisted reason := by
  have h0 : dbLookup st.blacklist fp = none := by
    cases hx : dbLookup st.blacklist fp with
    | none => rfl
    | some v =>
        unfold admin_blacklist at hok
        rw [hx] at hok
        simp at hok
  have h1 : dbLookup ((admin_blacklist lf now st fp reason blBy did).1).blacklist fp =
      some ⟨reason, blBy, did, now⟩ := by
    unfold admin_blacklist
    rw [h0]
    dsimp only
    rw [(logApi_fields lf _ _).1]
    rw [dbLookup_append_of_none h0 _, dbLookup_cons, if_pos rfl]
  have h2 := runOps_preserves_blacklist cd lf2 ops _ h1
  exact verify_key_blacklisted lf3 _ hfp hs h2

/-- C1 witness: a concrete ban followed by a verification of the banned
fingerprint, denied with the recorded reason. -/
theorem c1_witness :
    (verify_key false (runOps 7 false []
        (admin_blacklist false 1
          ⟨[("SK", ⟨"esp", some "d", none, "1.0.0"⟩)], [], [], [], [], [], []⟩
          "FP" "cheating" "admin" none).1) "SK" (some "FP")).2 = .blacklisted "cheating" :=
  c1_ban_then_always_blacklisted 7 false false false 1
    ⟨[("SK", ⟨"esp", some "d", none, "1.0.0"⟩)], [], [], [], [], [], []⟩
    "FP" "cheating" "admin" none (by decide) (by decide) [] "SK"
    ⟨"esp", some "d", none, "1.0.0"⟩ (by decide)

/-- C1 counterexample to the claim as stated: banning the EMPTY
fingerprint returns ok, yet a subsequent `verify_key` that supplies that
same fingerprint together with a resolving credential is granted — the
blacklist is never consulted because `if hwid:` treats `""` as absent. -/
theorem c1_counterexample :
    ((admin_blacklist false 1
        ⟨[("SK", ⟨"esp", some "d", none, "1.0.0"⟩)], [], [], [], [], [], []⟩
        "" "cheating" "admin" none).2 = InsOut.ok)
    ∧ ((verify_key false
        (admin_blacklist false 1
          ⟨[("SK", ⟨"esp", some "d", none, "1.0.0"⟩)], [], [], [], [], [], []⟩
          "" "cheating" "admin" none).1 "SK" (some "")).2 = .valid "esp" "1.0.0") :=
  ⟨rfl, rfl⟩

/-- C9: a `verify_key` request whose script key does not resolve is
denied `invalidKey`, and the response is identical across any two states
with the same scripts table — in particular across states that differ
only in whether the supplied fingerprint is blacklisted, so the response
does not reveal device/blacklist status for an invalid credential. -/
theorem c9_invalid_key_reveals_nothing (lf : Bool) (st1 st2 : DBState)
    (scriptKey : String) (hwid : Option String)
    (hs : st1.scripts = st2.scripts)
    (hk : dbLookup st1.scripts scriptKey = none) :
    (verify_key lf st1 scriptKey hwid).2 = .invalidKey ∧
      (verify_key lf st1 scriptKey hwid).2 = (verify_key lf st2 scriptKey hwid).2 := by
  have hk2 : dbLookup st2.scripts scriptKey = none := hs ▸ hk
  constructor
  · unfold verify_key
    rw [hk]
  · unfold verify_key
    rw [hk, hk2]

/-- C9 witness: the invalid-credential response with the fingerprint
blacklisted equals the one with an empty blacklist. -/
theorem c9_witness :
    (verify_key false ⟨[], [("FP", ⟨"r", "a", none, 0⟩)], [], [], [], [], []⟩
        "BAD" (some "FP")).2 = .invalidKey ∧
      (verify_key false ⟨[], [("FP", ⟨"r", "a", none, 0⟩)], [], [], [], [], []⟩
          "BAD" (some "FP")).2 =
        (verify_key false ⟨[], [], [], [], [], [], []⟩ "BAD" (some "FP")).2 :=
  c9_invalid_key_reveals_nothing false
    ⟨[], [("FP", ⟨"r", "a", none, 0⟩)], [], [], [], [], []⟩
    ⟨[], [], [], [], [], [], []⟩ "BAD" (some "FP") (by decide) (by decide)

/-- C10: when the script key resolves and no fingerprint is supplied, the
request is granted whatever the blacklist holds — omitting the
fingerprint bypasses the blacklist check entirely. -/
theorem c10_missing_fingerprint_bypasses_blacklist (lf : Bool) (st : DBState)
    (scriptKey : String) (s : ScriptRec)
    (hk : dbLookup st.scripts scriptKey = some s) :
    (verify_key lf st scriptKey none).2 = .valid s.name s.version ∧
      ∀ bl : List (String × BlEntry),
        (verify_key lf { st with blacklist := bl } scriptKey none).2 =
          .valid s.name s.version := by
  constructor
  · unfold verify_key
    rw [hk]
    rfl
  · intro bl
    unfold verify_key
    rw [show ({ st with blacklist := bl } : DBState).scripts = st.scripts from rfl, hk]
    rfl

/-- C10 witness: granted with no fingerprint although a fingerprint is
blacklisted. -/
theorem c10_witness :
    (verify_key false
        ⟨[("SK", ⟨"esp", none, none, "1.0.0"⟩)], [("FP", ⟨"r", "a", none, 0⟩)],
          [], [], [], [], []⟩ "SK" none).2 = .valid "esp" "1.0.0" :=
  (c10_missing_fingerprint_bypasses_blacklist false
    ⟨[("SK", ⟨"esp", none, none, "1.0.0"⟩)], [("FP", ⟨"r", "a", none, 0⟩)],
      [], [], [], [], []⟩ "SK" ⟨"esp", none, none, "1.0.0"⟩ (by decide)).1

/-- C7: `admin_blacklist` (Ban) answers Conflict on an already-listed
fingerprint leaving the whole store unchanged; on success it records
exactly one new blacklist entry (with the given reason, actor, identity
and timestamp) and deactivates exactly the subscribers bound to that
fingerprint, leaving all others as they were. -/
theorem c7_ban_conflict_or_cascade (lf : Bool) (now : Nat) (st : DBState)
    (fp reason blBy : String) (did : Option String) :
    (∀ e, dbLookup st.blacklist fp = some e →
        admin_blacklist lf now st fp reason blBy did = (st, .conflict))
    ∧ (dbLookup st.blacklist fp = none →
        (admin_blacklist lf now st fp reason blBy did).2 = .ok
        ∧ dbLookup ((admin_blacklist lf now st fp reason blBy did).1).blacklist fp =
            some ⟨reason, blBy, did, now⟩
        ∧ ((admin_blacklist lf now st fp reason blBy did).1).blacklist.length =
            st.blacklist.length + 1
        ∧ (∀ u ∈ ((admin_blacklist lf now st fp reason blBy did).1).users,
            u.hwid = some fp → u.isActive = false)
        ∧ (∀ u ∈ st.users, u.hwid ≠ some fp →
            u ∈ ((admin_blacklist lf now st fp reason blBy did).1).users)) := by
  constructor
  · intro e he
    unfold admin_blacklist
    rw [he]
  · intro h0
    unfold admin_blacklist
    rw [h0]
    dsimp only
    refine ⟨rfl, ?_, ?_, ?_, ?_⟩
    · rw [(logApi_fields lf _ _).1, dbLookup_append_of_none h0 _, dbLookup_cons,
        if_pos rfl]
    · rw [(logApi_fields lf _ _).1]
      simp
    · rw [(logApi_fields lf _ _).2.2.2]
      intro u hu hh
      rcases List.mem_map.mp hu with ⟨u0, hu0, hmap⟩
      by_cases hb : u0.hwid = some fp
      · rw [if_pos hb] at hmap
        rw [← hmap]
      · rw [if_neg hb] at hmap
        exact absurd (hmap ▸ hh) hb
    · intro u hu hne
      rw [(logApi_fields lf _ _).2.2.2]
      exact List.mem_map.mpr ⟨u, hu, by rw [if_neg hne]⟩

/-- C7 witness: a concrete successful ban records the entry and
deactivates the bound subscriber. -/
theorem c7_witness :
    dbLookup ((admin_blacklist false 9
        ⟨[], [], [⟨"u1", "alice", some "FP", none, true, none, 0, none⟩], [], [], [], []⟩
        "FP" "cheats" "adm" none).1).blacklist "FP" = some ⟨"cheats", "adm", none, 9⟩ :=
  ((c7_ban_conflict_or_cascade false 9
      ⟨[], [], [⟨"u1", "alice", some "FP", none, true, none, 0, none⟩], [], [], [], []⟩
      "FP" "cheats" "adm" none).2 (by decide)).2.1

/-- C2 (amended): `register_hwid` with a non-blacklisted fingerprint and a
truthy discord id succeeds and binds the supplied fingerprint
UNCONDITIONALLY — a subscriber already bound to a different fingerprint
is silently re-bound, the only record appended being a HWID_REGISTERED
log, never a DeviceChanged one and never a denial.  (The original claim —
set only if unset, and mismatches denied or logged as DeviceChanged —
fails: see the counterexample.) -/
theorem c2_register_overwrites_silently (now : Nat) (st : DBState)
    (hwid did : String) (hdid : did ≠ "")
    (hbl : dbLookup st.blacklist hwid = none) :
    (register_hwid false now st hwid (some did) none).2 = .ok
    ∧ (∀ u ∈ ((register_hwid false now st hwid (some did) none).1).users,
        u.discordId = did → u.hwid = some hwid)
    ∧ ((register_hwid false now st hwid (some did) none).1).logs =
        st.logs ++ [⟨some did, some hwid, "HWID_REGISTERED", "Success"⟩] := by
  have hres : register_hwid false now st hwid (some did) none =
      ({ st with
          hwidRegistry := upsertRegistry st.hwidRegistry did hwid now,
          users := st.users.map (fun u =>
            if u.discordId = did then { u with hwid := some hwid } else u),
          logs := st.logs ++ [⟨some did, some hwid, "HWID_REGISTERED", "Success"⟩] },
        .ok) := by
    unfold register_hwid
    rw [if_neg (by simp [truthy])]
    rw [hbl]
    dsimp only
    rw [if_pos (truthy_some hdid)]
    simp only [Option.getD_some]
    unfold logApi
    rw [if_neg (by simp)]
  rw [hres]
  refine ⟨rfl, ?_, rfl⟩
  intro u hu hid
  dsimp only at hu
  rcases List.mem_map.mp hu with ⟨u0, hu0, hmap⟩
  by_cases hb : u0.discordId = did
  · rw [if_pos hb] at hmap
    rw [← hmap]
  · rw [if_neg hb] at hmap
    exact absurd (hmap ▸ hid) hb

/-- C2 witness: a subscriber with no binding mismatch still gets the
fingerprint stored and the HWID_REGISTERED log. -/
theorem c2_witness :
    (register_hwid false 5
        ⟨[], [], [⟨"u1", "alice", none, none, true, none, 0, none⟩], [], [], [], []⟩
        "FP1" (some "u1") none).2 = RegOut.ok :=
  (c2_register_overwrites_silently 5
    ⟨[], [], [⟨"u1", "alice", none, none, true, none, 0, none⟩], [], [], [], []⟩
    "FP1" "u1" (by decide) (by decide)).1

/-- C2 counterexample to the claim as stated: a subscriber bound to "FP1"
is silently re-bound to "FP2" by `register_hwid`; the call succeeds, the
old binding is overwritten, and the resulting log contains no
DeviceChanged record (only HWID_REGISTERED). -/
theorem c2_counterexample :
    ((register_hwid false 5
        ⟨[], [], [⟨"u1", "alice", some "FP1", some "K", true, some 999, 0, none⟩],
          [], [], [], []⟩ "FP2" (some "u1") none).2 = RegOut.ok)
    ∧ (((register_hwid false 5
        ⟨[], [], [⟨"u1", "alice", some "FP1", some "K", true, some 999, 0, none⟩],
          [], [], [], []⟩ "FP2" (some "u1") none).1).users =
        [⟨"u1", "alice", some "FP2", some "K", true, some 999, 0, none⟩])
    ∧ (((register_hwid false 5
        ⟨[], [], [⟨"u1", "alice", some "FP1", some "K", true, some 999, 0, none⟩],
          [], [], [], []⟩ "FP2" (some "u1") none).1).logs.filter
        (fun r => r.action == "DeviceChanged") = []) :=
  ⟨rfl, rfl, rfl⟩

/-- C4 (amended): a redemption attempt for an absent key code and one for
an existing but already-redeemed code produce the very same outcome (the
single "Invalid or already redeemed key" response) with the store
unchanged — the caller cannot distinguish NotFound from
AlreadyRedeemed.  (The original claim asserted two distinct,
distinguishable outcomes.) -/
theorem c4_single_failure_outcome (lf : Bool) (now : Nat) (st : DBState)
    (uid uname input : String) :
    (dbLookup st.keys (pyUpperStrip input) = none →
        redeem_key lf now st uid uname input = (st, .ok .invalidOrRedeemed))
    ∧ (∀ k, dbLookup st.keys (pyUpperStrip input) = some k → k.isRedeemed = true →
        redeem_key lf now st uid uname input = (st, .ok .invalidOrRedeemed)) := by
  constructor
  · intro h
    unfold redeem_key
    dsimp only
    rw [h]
  · intro k hk hr
    unfold redeem_key
    dsimp only
    rw [hk]
    dsimp only
    rw [if_pos hr]

/-- C4 witness: both failure branches at a concrete store. -/
theorem c4_witness :
    redeem_key false 10
        ⟨[], [], [], [("AAAA", ⟨30, true, some "u0", some 1, 0⟩)], [], [], []⟩
        "v" "w" "BBBB" =
      (⟨[], [], [], [("AAAA", ⟨30, true, some "u0", some 1, 0⟩)], [], [], []⟩,
        .ok .invalidOrRedeemed) :=
  (c4_single_failure_outcome false 10
    ⟨[], [], [], [("AAAA", ⟨30, true, some "u0", some 1, 0⟩)], [], [], []⟩
    "v" "w" "BBBB").1 (by decide)

/-- C4 counterexample to the claim as stated: redeeming an
already-redeemed code ("AAAA") and redeeming a nonexistent code ("BBBB")
return literally identical results — the two failure cases are not
distinguishable by the caller. -/
theorem c4_counterexample :
    redeem_key false 10
        ⟨[], [], [], [("AAAA", ⟨30, true, some "u0", some 1, 0⟩)], [], [], []⟩
        "v" "w" "AAAA" =
      redeem_key false 10
        ⟨[], [], [], [("AAAA", ⟨30, true, some "u0", some 1, 0⟩)], [], [], []⟩
        "v" "w" "BBBB" := rfl

/-- C3 (amended): while a redeemed key record exists it stays redeemed —
under every single operation of either source file the code either still
maps to a redeemed record or its row has been deleted; and every
redemption attempt of that code fails with the combined
invalid-or-redeemed outcome, leaving the store unchanged.  (The original
claim — "never returned to the unredeemed state by ANY operation, and
every later redemption of the same key code fails" — breaks only through
`admin_delete_key` followed by re-inserting the same code, after which
the code is unredeemed again and redeemable: see the counterexample.) -/
theorem c3_redeemed_stays_redeemed (cd : Nat) (lf : Bool) (nowOp : Nat)
    (st : DBState) (code : String) (k : KeyRec)
    (hk : dbLookup st.keys code = some k) (hr : k.isRedeemed = true) :
    (∀ op : Op, dbLookup ((step cd lf nowOp st op).keys) code = none ∨
        ∃ k', dbLookup ((step cd lf nowOp st op).keys) code = some k' ∧
          k'.isRedeemed = true)
    ∧ (∀ uid uname input, pyUpperStrip input = code →
        redeem_key lf nowOp st uid uname input = (st, .ok .invalidOrRedeemed)) := by
  constructor
  · intro op
    cases op with
    | opVerify a b =>
        right
        exact ⟨k, by rw [step, (verify_key_frame lf st a b).2]; exact hk, hr⟩
    | opCheckBl a b =>
        right
        exact ⟨k, by rw [step, (check_blacklist_frame lf st a b).2]; exact hk, hr⟩
    | opRegister a b c =>
        right
        exact ⟨k, by rw [step, (register_hwid_frame lf nowOp st a b c).2]; exact hk, hr⟩
    | opAdminRegister a b =>
        right
        exact ⟨k, by rw [step, (admin_register_hwid_frame lf nowOp st a b).2]; exact hk, hr⟩
    | opAddScript a b c =>
        right
        exact ⟨k, by rw [step, (admin_add_script_frame lf st a b c).2]; exact hk, hr⟩
    | opBan a b c d =>
        right
        exact ⟨k, by rw [step, admin_blacklist_keys]; exact hk, hr⟩
    | opGenscript a b c d =>
        right
        exact ⟨k, by rw [step, (genscript_frame lf st a b c d).2]; exact hk, hr⟩
    | opReset a =>
        right
        exact ⟨k, by rw [step, (reset_hwid_frame lf cd nowOp st a).2]; exact hk, hr⟩
    | opWhitelist a b =>
        right
        exact ⟨k, by rw [step, (whitelist_log_frame lf st a b).2]; exact hk, hr⟩
    | opAddKey c d =>
        right
        refine ⟨k, ?_, hr⟩
        rw [step]
        unfold admin_add_key
        cases hc : dbLookup st.keys c with
        | some _ => exact hk
        | none =>
            dsimp only
            rw [(logApi_fields lf _ _).2.1]
            exact dbLookup_append_of_some hk
    | opDeleteKey c =>
        rw [step]
        unfold admin_delete_key
        rw [(logApi_fields lf _ _).2.1]
        by_cases hc : code = c
        · left
          rw [hc]
          exact dbLookup_filter_self _ _
        · right
          exact ⟨k, by rw [dbLookup_filter_ne _ hc]; exact hk, hr⟩
    | opRedeem u un i =>
        right
        exact ⟨k, redeem_key_keys_preserves lf nowOp st u un i hk hr, hr⟩
    | opGenkey u d cs =>
        right
        exact ⟨k, genkey_keys_preserves lf nowOp st u d cs hk, hr⟩
  · intro uid uname input hin
    unfold redeem_key
    dsimp only
    rw [hin, hk]
    dsimp only
    rw [if_pos hr]

/-- C3 witness: redeeming an already-redeemed concrete key fails and
leaves the store unchanged. -/
theorem c3_witness :
    redeem_key false 9
        ⟨[], [], [], [("KC", ⟨30, true, some "u0", some 1, 0⟩)], [], [], []⟩
        "u2" "bob" "KC" =
      (⟨[], [], [], [("KC", ⟨30, true, some "u0", some 1, 0⟩)], [], [], []⟩,
        .ok .invalidOrRedeemed) :=
  (c3_redeemed_stays_redeemed 7 false 9
    ⟨[], [], [], [("KC", ⟨30, true, some "u0", some 1, 0⟩)], [], [], []⟩
    "KC" ⟨30, true, some "u0", some 1, 0⟩ (by decide) (by decide)).2
    "u2" "bob" "KC" (by decide)

/-- C3 counterexample to the claim as stated: a redeemed key "KC" is
deleted (`admin_delete_key`) and re-created with the same code
(`admin_add_key`); the code is then unredeemed again and a later
redemption of the same key code succeeds. -/
theorem c3_counterexample :
    (dbLookup ((step 7 false 5
        (step 7 false 4
          ⟨[], [], [], [("KC", ⟨30, true, some "u0", some 1, 0⟩)], [], [], []⟩
          (.opDeleteKey "KC")) (.opAddKey "KC" 30)).keys) "KC" =
      some ⟨30, false, none, none, 5⟩)
    ∧ ((redeem_key false 6 (step 7 false 5
        (step 7 false 4
          ⟨[], [], [], [("KC", ⟨30, true, some "u0", some 1, 0⟩)], [], [], []⟩
          (.opDeleteKey "KC")) (.opAddKey "KC" 30)) "u2" "bob" "KC").2 =
        .ok (.success 30 (6 + 30 * 86400))) :=
  ⟨rfl, rfl⟩

/-- C5: `genkey` (IssueKeys) over a batch of distinct fresh codes —
fresh with respect to the keys table and to every stored
`users.license_key`, the two UNIQUE constraints a redemption can hit —
answers ok and creates one unredeemed key of the requested duration per
code; redeeming any of them succeeds, marks that key redeemed with the
redeemer's identity and the redemption time, and leaves the redeeming
subscriber active with expiry exactly now plus the duration in days. -/
theorem c5_issue_then_redeem (now now2 : Nat) (st : DBState)
    (adminId uid uname : String) (d : Nat) (codes : List String)
    (hlen : codes.length ≤ 20) (hnd : codes.Nodup)
    (hfresh : ∀ c ∈ codes, dbLookup st.keys c = none)
    (hfreshU : ∀ c ∈ codes, ∀ u ∈ st.users, ¬ u.licenseKey = some c) :
    (genkey false now st adminId d codes).2 = .ok (.ok codes)
    ∧ (∀ c ∈ codes, dbLookup (((genkey false now st adminId d codes).1).keys) c =
        some ⟨d, false, none, none, now⟩)
    ∧ (∀ c ∈ codes, pyUpperStrip c = c →
        (redeem_key false now2 ((genkey false now st adminId d codes).1)
            uid uname c).2 = .ok (.success d (now2 + d * 86400))
        ∧ dbLookup (((redeem_key false now2 ((genkey false now st adminId d codes).1)
              uid uname c).1).keys) c = some ⟨d, true, some uid, some now2, now⟩
        ∧ ∃ u, findUser (((redeem_key false now2 ((genkey false now st adminId d codes).1)
              uid uname c).1).users) uid = some u
            ∧ u.expiryDate = some (now2 + d * 86400) ∧ u.isActive = true) := by
  obtain ⟨ks', hins, hmem⟩ := insertKeys_spec codes st.keys d now hnd hfresh
  obtain ⟨hout, hkeys, husers⟩ := genkey_ok_shape now st adminId d codes hlen hins
  refine ⟨hout, ?_, ?_⟩
  · intro c hc
    rw [hkeys]
    exact hmem c hc
  · intro c hc hnorm
    have hlk : dbLookup (((genkey false now st adminId d codes).1).keys)
        (pyUpperStrip c) = some ⟨d, false, none, none, now⟩ := by
      rw [hnorm, hkeys]
      exact hmem c hc
    have hnc : licenseKeyConflict (((genkey false now st adminId d codes).1).users)
        uid (pyUpperStrip c) = false := by
      rw [husers, hnorm]
      unfold licenseKeyConflict
      rw [List.any_eq_false]
      intro u hu
      simp [hfreshU c hc u hu]
    obtain ⟨h1, h2, u, hu, he, ha, hl⟩ :=
      redeem_key_success now2 _ uid uname c hlk rfl hnc
    refine ⟨h1, ?_, u, hu, he, ha⟩
    rw [hnorm] at h2
    exact h2

/-- C5 witness: a concrete batch of two keys, both created unredeemed,
one redeemed with the expected expiry. -/
theorem c5_witness :
    (genkey false 0 ⟨[], [], [], [], [], [], []⟩ "adm" 30 ["AA", "BB"]).2 =
      .ok (.ok ["AA", "BB"]) :=
  (c5_issue_then_redeem 0 5 ⟨[], [], [], [], [], [], []⟩ "adm" "u1" "alice" 30
    ["AA", "BB"] (by decide) (by decide) (by decide) (by decide)).1

/-- C6: the panel HWID reset.  With a bound (truthy) fingerprint and a
stamped last reset, a call inside the cooldown window is denied with the
remaining days, and that count never increases as the clock advances;
once the cooldown has elapsed the reset succeeds, clears the binding and
stamps the reset time; with no bound fingerprint (or no user row) it
fails with the no-device answer. -/
theorem c6_reset_device (cd now : Nat) (st : DBState) (uid : String) :
    (∀ u t, findUser st.users uid = some u → truthy u.hwid = true →
        u.lastReset = some t → (now - t) / 86400 < cd →
        reset_hwid false cd now st uid =
          (st, .ok (.cooldown (cd - (now - t) / 86400))))
    ∧ (∀ u t now1 now2 n1 n2, findUser st.users uid = some u →
        u.lastReset = some t → now1 ≤ now2 →
        (reset_hwid false cd now1 st uid).2 = .ok (.cooldown n1) →
        (reset_hwid false cd now2 st uid).2 = .ok (.cooldown n2) → n2 ≤ n1)
    ∧ (∀ u t, findUser st.users uid = some u → truthy u.hwid = true →
        u.lastReset = some t → cd ≤ (now - t) / 86400 →
        (reset_hwid false cd now st uid).2 = .ok .ok
        ∧ ∀ u', findUser ((reset_hwid false cd now st uid).1).users uid = some u' →
            u'.hwid = none ∧ u'.lastReset = some now)
    ∧ (∀ u, findUser st.users uid = some u → truthy u.hwid = false →
        reset_hwid false cd now st uid = (st, .ok .noDevice))
    ∧ (findUser st.users uid = none →
        reset_hwid false cd now st uid = (st, .ok .noDevice)) := by
  refine ⟨?_, ?_, ?_, ?_, ?_⟩
  · intro u t hf ht hlr hlt
    unfold reset_hwid
    rw [hf]
    dsimp only
    rw [if_pos ht, hlr]
    dsimp only
    rw [if_pos hlt]
  · intro u t now1 now2 n1 n2 hf hlr h12 h1 h2
    obtain ⟨hlt1, e1⟩ := reset_cooldown_inversion hf hlr h1
    obtain ⟨hlt2, e2⟩ := reset_cooldown_inversion hf hlr h2
    have hd : (now1 - t) / 86400 ≤ (now2 - t) / 86400 :=
      Nat.div_le_div_right (Nat.sub_le_sub_right h12 t)
    omega
  · intro u t hf ht hlr hge
    unfold reset_hwid
    rw [hf]
    dsimp only
    rw [if_pos ht, hlr]
    dsimp only
    rw [if_neg (by omega)]
    refine ⟨(do_reset_ok_shape now st uid _).1, ?_⟩
    intro u' hu'
    rw [(do_reset_ok_shape now st uid _).2] at hu'
    have h := findUser_map_update st.users uid
      (fun u => { u with hwid := none, lastReset := some now }) (fun u => rfl)
    rw [hf] at h
    rw [h] at hu'
    injection hu' with hu'
    rw [← hu']
    exact ⟨rfl, rfl⟩
  · intro u hf ht
    unfold reset_hwid
    rw [hf]
    dsimp only
    rw [if_neg (by simp [ht])]
  · intro hf
    unfold reset_hwid
    rw [hf]

/-- C6 witness: one day after a reset with a 7-day cooldown, the reset is
denied with 6 days remaining. -/
theorem c6_witness :
    reset_hwid false 7 86400
        ⟨[], [], [⟨"u1", "alice", some "H", none, true, none, 0, some 0⟩],
          [], [], [], []⟩ "u1" =
      (⟨[], [], [⟨"u1", "alice", some "H", none, true, none, 0, some 0⟩],
          [], [], [], []⟩, .ok (.cooldown 6)) :=
  (c6_reset_device 7 86400
    ⟨[], [], [⟨"u1", "alice", some "H", none, true, none, 0, some 0⟩],
      [], [], [], []⟩ "u1").1
    ⟨"u1", "alice", some "H", none, true, none, 0, some 0⟩ 0
    (by decide) (by decide) (by decide) (by decide)

/-- C8 (code bug): bot.py's `log_activity` has no exception handler
(api_server.py's identical function does), so when the activity-log
INSERT fails during a key redemption the failure propagates to the
caller and aborts the response — although the redemption itself was
already committed.  The api_server operations are unaffected: the
verify-key response is identical whether or not its log write fails. -/
theorem c8_bot_log_failure_propagates :
    ((redeem_key true 100
        ⟨[], [], [], [("KC", ⟨30, false, none, none, 0⟩)], [], [], []⟩
        "u1" "alice" "KC").2 = .error ())
    ∧ ((redeem_key false 100
        ⟨[], [], [], [("KC", ⟨30, false, none, none, 0⟩)], [], [], []⟩
        "u1" "alice" "KC").2 = .ok (.success 30 (100 + 30 * 86400)))
    ∧ (dbLookup (((redeem_key true 100
        ⟨[], [], [], [("KC", ⟨30, false, none, none, 0⟩)], [], [], []⟩
        "u1" "alice" "KC").1).keys) "KC" = some ⟨30, true, some "u1", some 100, 0⟩)
    ∧ ((verify_key true
        ⟨[("SK", ⟨"esp", none, none, "1.0.0"⟩)], [], [], [], [], [], []⟩
        "SK" (some "H")).2 =
      (verify_key false
        ⟨[("SK", ⟨"esp", none, none, "1.0.0"⟩)], [], [], [], [], [], []⟩
        "SK" (some "H")).2) :=
  ⟨rfl, rfl, rfl, rfl⟩

end BW
